import Mathlib

/-!
Verification of the Bravais-lattice classification module
(`ase/geometry/bravais.py`) against its natural-language specification.

The Python module works on IEEE floats; here the arithmetic is embedded over
the exact reals `ℝ`, which is the standard shallow embedding for this kind of
closed-form numeric code (`np.sqrt` becomes `Real.sqrt`, `np.arccos` becomes
`Real.arccos`, angles in degrees stay in degrees).  Python exceptions are
embedded as an `Except PyErr` result; the distinct exception classes of the
module become distinct constructors of `PyErr`.

External collaborators that are not part of the analysed sources
(`Cell.cellpar`, `Cell.reciprocal`, niggli reduction, `parse_path_string`,
the static `ibz_points` table) are modelled from the specification; each such
definition carries a doc comment starting with "Modelled from the spec".
-/

namespace Bravais

/-- Python exception kinds that the module can raise.  `unconventionalLattice`
is the distinguished `UnconventionalLattice(ValueError)` subclass;
`valueError` is a plain `ValueError`; `assertionError` is a failing `assert`;
`nameError` is evaluation of an undefined name; `runtimeError` is the generic
`RuntimeError('Cannot recognize cell at all somehow!')`. -/
inductive PyErr
  | assertionError
  | valueError
  | unconventionalLattice
  | nameError
  | runtimeError
  | keyError
  deriving DecidableEq, Repr

/-- The 14 Bravais families of the module. -/
inductive Fam
  | CUB | FCC | BCC | TET | BCT | ORC | ORCF | ORCI | ORCC | HEX | RHL | MCL | MCLC | TRI
  deriving DecidableEq, Repr

/-- A concrete lattice object: family tag plus the parameters stored by the
constructor; families with several variants also store the resolved variant
name (`BravaisLattice.__init__` resolves it eagerly via `get_variant`). -/
inductive Lattice
  | CUB (a : ℝ)
  | FCC (a : ℝ)
  | BCC (a : ℝ)
  | TET (a c : ℝ)
  | BCT (a c : ℝ) (variant : String)
  | ORC (a b c : ℝ)
  | ORCF (a b c : ℝ) (variant : String)
  | ORCI (a b c : ℝ)
  | ORCC (a b c : ℝ)
  | HEX (a c : ℝ)
  | RHL (a alpha : ℝ) (variant : String)
  | MCL (a b c alpha : ℝ)
  | MCLC (a b c alpha : ℝ) (variant : String)
  | TRI (a b c alpha beta gamma : ℝ) (variant : String)

/-- Family tag of a lattice object. -/
def famOf : Lattice → Fam
  | .CUB _ => .CUB
  | .FCC _ => .FCC
  | .BCC _ => .BCC
  | .TET _ _ => .TET
  | .BCT _ _ _ => .BCT
  | .ORC _ _ _ => .ORC
  | .ORCF _ _ _ _ => .ORCF
  | .ORCI _ _ _ => .ORCI
  | .ORCC _ _ _ => .ORCC
  | .HEX _ _ => .HEX
  | .RHL _ _ _ => .RHL
  | .MCL _ _ _ _ => .MCL
  | .MCLC _ _ _ _ _ => .MCLC
  | .TRI _ _ _ _ _ _ _ => .TRI

/-- Resolved variant name of a lattice object, when the family has one. -/
def Lattice.variantName : Lattice → Option String
  | .BCT _ _ v => some v
  | .ORCF _ _ _ v => some v
  | .RHL _ _ v => some v
  | .MCLC _ _ _ _ v => some v
  | .TRI _ _ _ _ _ _ v => some v
  | _ => none

/-- Default tolerance of `BravaisLattice.__init__` (`eps = 2e-4`); lattices
constructed inside `get_bravais_lattice` are built without an `eps` keyword
and therefore use this default. -/
noncomputable def bravais_default_eps : ℝ := 2e-4

/-- Default relative tolerance `rtol=1e-5` of `np.allclose`/`np.isclose`. -/
noncomputable def np_default_rtol : ℝ := 1e-5

/-- Default absolute tolerance `atol=1e-8` of `np.allclose`/`np.isclose`. -/
noncomputable def np_default_atol : ℝ := 1e-8

/-- One `np.isclose` comparison: `abs(x - y) <= atol + rtol * abs(y)`. -/
def npclose (atol rtol x y : ℝ) : Prop := |x - y| ≤ atol + rtol * |y|

noncomputable instance (atol rtol x y : ℝ) : Decidable (npclose atol rtol x y) := by
  unfold npclose; infer_instance

/-- Number of pairs of `{a, b, c}` lying strictly within `eps` of each other:
the `neq = sum(eq)` quantity of `categorize_differences`, with
`eq = [abs(b - c) < eps, abs(c - a) < eps, abs(a - b) < eps]`. -/
noncomputable def neq_count (eps a b c : ℝ) : ℕ :=
  (if |b - c| < eps then 1 else 0) +
  (if |c - a| < eps then 1 else 0) +
  (if |a - b| < eps then 1 else 0)

/-- `categorize_differences(numbers)` from `get_bravais_lattice`
(src/ase/geometry/bravais.py lines 958-967): classifies the pairwise equality
pattern of a triple at tolerance `eps`.  Returns
`(all_equal, all_different, funny_direction)`; the internal
`assert neq != 2` becomes an `AssertionError` result.  `funny_direction` is
`np.argmax(eq)` (index of the first `True`) when exactly one pair is close. -/
noncomputable def categorize_differences (eps a b c : ℝ) :
    Except PyErr (Bool × Bool × Option (Fin 3)) :=
  let neq := neq_count eps a b c
  if neq = 2 then .error .assertionError
  else
    .ok (neq == 3, neq == 0,
      if neq = 1 then
        some (if |b - c| < eps then (0 : Fin 3)
              else if |c - a| < eps then 1 else 2)
      else none)

/-! ## Family constructors and variant selection -/

/-- A vector of three reals (cell lengths, angles, or scalar products). -/
abbrev V3 := Fin 3 → ℝ

/-- A 3x3 real matrix of cell row vectors. -/
abbrev Mat3 := Matrix (Fin 3) (Fin 3) ℝ

/-- `check_orc(a, b, c)`: raises `UnconventionalLattice` unless `a < b < c`. -/
noncomputable def check_orc (a b c : ℝ) : Except PyErr Unit :=
  if a < b ∧ b < c then .ok () else .error .unconventionalLattice

/-- `check_mcl(a, b, c, alpha)`: raises `UnconventionalLattice` unless
`a <= c`, `b <= c` and `alpha < 90`. -/
noncomputable def check_mcl (a b c alpha : ℝ) : Except PyErr Unit :=
  if a ≤ c ∧ b ≤ c ∧ alpha < 90 then .ok () else .error .unconventionalLattice

/-- `BCT._variant_name(a, c)`: `'BCT1' if c < a else 'BCT2'`. -/
noncomputable def BCT_variant_name (a c : ℝ) : String :=
  if c < a then "BCT1" else "BCT2"

/-- `BCT(a, c)`: construction never fails; the variant is resolved eagerly by
`BravaisLattice.__init__` via `_variant_name`. -/
noncomputable def BCT_init (a c : ℝ) : Lattice :=
  .BCT a c (BCT_variant_name a c)

/-- `ORC._variant_name` is inherited from `SimpleBravaisLattice._variant_name`
(src lines 303-305), which only asserts that the family has a single variant
and returns its name; it performs no parameter validation (in particular it
does not call `check_orc`). -/
def ORC_variant_name : String := "ORC"

/-- `ORC(a, b, c)`: `BravaisLattice.__init__` stores the parameters and
resolves the variant through `SimpleBravaisLattice._variant_name`; no step of
construction validates `a < b < c`, so construction always succeeds. -/
def ORC_init (a b c : ℝ) : Except PyErr Lattice :=
  .ok (.ORC a b c)

/-- `ORC._cell(a, b, c)` (called from `tocell`): calls `check_orc` and then
returns `np.diag([a, b, c])`. -/
noncomputable def ORC_tocell (a b c : ℝ) : Except PyErr Mat3 :=
  match check_orc a b c with
  | .error e => .error e
  | .ok _ => .ok ![![a, 0, 0], ![0, b, 0], ![0, 0, c]]

/-- `ORCC._variant_name(a, b, c)`: raises `UnconventionalLattice` unless
`a < b`; `ORCC.__init__` therefore fails on unordered parameters. -/
noncomputable def ORCC_init (a b c : ℝ) : Except PyErr Lattice :=
  if a < b then .ok (.ORCC a b c) else .error .unconventionalLattice

/-- `ORCF._variant_name(a, b, c)`: `check_orc`, then classifies
`diff = 1/a**2 - 1/b**2 - 1/c**2` against `self._eps`:
`ORCF3` when `abs(diff) < eps`, `ORCF1` when `diff > 0`, else `ORCF2`. -/
noncomputable def ORCF_variant_name (eps a b c : ℝ) : Except PyErr String :=
  match check_orc a b c with
  | .error e => .error e
  | .ok _ =>
    let diff := 1 / (a * a) - 1 / (b * b) - 1 / (c * c)
    if |diff| < eps then .ok "ORCF3"
    else if diff > 0 then .ok "ORCF1" else .ok "ORCF2"

/-- `ORCF(a, b, c)` construction with the default tolerance. -/
noncomputable def ORCF_init (a b c : ℝ) : Except PyErr Lattice :=
  match ORCF_variant_name bravais_default_eps a b c with
  | .error e => .error e
  | .ok v => .ok (.ORCF a b c v)

/-- `ORCI._variant_name(a, b, c)`: `check_orc` then the single variant. -/
noncomputable def ORCI_init (a b c : ℝ) : Except PyErr Lattice :=
  match check_orc a b c with
  | .error e => .error e
  | .ok _ => .ok (.ORCI a b c)

/-- `RHL._variant_name(a, alpha)`: `'RHL1' if alpha < 90 else 'RHL2'`. -/
noncomputable def RHL_variant_name (alpha : ℝ) : String :=
  if alpha < 90 then "RHL1" else "RHL2"

/-- `RHL.__init__(a, alpha)` (src lines 627-631): raises a plain `ValueError`
when `alpha >= 120`, before `BravaisLattice.__init__` stores any parameter;
otherwise stores the parameters and resolves the variant. -/
noncomputable def RHL_init (a alpha : ℝ) : Except PyErr Lattice :=
  if 120 ≤ alpha then .error .valueError
  else .ok (.RHL a alpha (RHL_variant_name alpha))

/-- `MCL._variant_name`: `check_mcl` then the single variant `MCL`. -/
noncomputable def MCL_init (a b c alpha : ℝ) : Except PyErr Lattice :=
  match check_mcl a b c alpha with
  | .error e => .error e
  | .ok _ => .ok (.MCL a b c alpha)

/-! ## Cell geometry

`Cell` lives in `ase.geometry.cell`, outside the analysed sources; its
parameter extraction and reciprocal basis are modelled from spec section 4.1
and section 3. -/

open scoped Classical

/-- The module constant `_degrees = np.pi / 180`. -/
noncomputable def degrees : ℝ := Real.pi / 180

/-- Dot product of two row vectors. -/
noncomputable def dot3 (u v : V3) : ℝ := u 0 * v 0 + u 1 * v 1 + u 2 * v 2

/-- Euclidean norm of a row vector. -/
noncomputable def vnorm (u : V3) : ℝ := Real.sqrt (dot3 u u)

/-- Modelled from the spec (section 4.1): the angle between two basis vectors
in degrees, `arccos(u.v / (|u| |v|)) * 180 / pi`. -/
noncomputable def angle_deg (u v : V3) : ℝ :=
  Real.arccos (dot3 u v / (vnorm u * vnorm v)) * 180 / Real.pi

/-- Modelled from the spec (section 4.1): the three cell lengths `a, b, c`
are the row-vector norms. -/
noncomputable def cellpar_lengths (M : Mat3) : V3 :=
  ![vnorm (M 0), vnorm (M 1), vnorm (M 2)]

/-- Modelled from the spec (section 4.1): the three cell angles in degrees,
`alpha = angle(b, c)`, `beta = angle(a, c)`, `gamma = angle(a, b)`. -/
noncomputable def cellpar_angles (M : Mat3) : V3 :=
  ![angle_deg (M 1) (M 2), angle_deg (M 0) (M 2), angle_deg (M 0) (M 1)]

/-- The six cell parameters as (lengths, angles). -/
noncomputable def cellpar6 (M : Mat3) : V3 × V3 := (cellpar_lengths M, cellpar_angles M)

/-- Modelled from the spec (section 3): the reciprocal basis is the matrix
inverse transpose (a possible 2*pi scaling does not change the reciprocal
angles, which are all the classifier uses it for). -/
noncomputable def reciprocal (M : Mat3) : Mat3 := M⁻¹.transpose

/-- Rows of `M` reordered by a permutation (`uc.array[permutation]`). -/
def permuteRows (M : Mat3) (p : Fin 3 → Fin 3) : Mat3 := fun i j => M (p i) j

/-- `np.sort` of three values (ascending). -/
noncomputable def sort3 (a b c : ℝ) : ℝ × ℝ × ℝ :=
  if a ≤ b then
    if b ≤ c then (a, b, c)
    else if a ≤ c then (a, c, b)
    else (c, a, b)
  else
    if a ≤ c then (b, a, c)
    else if b ≤ c then (b, c, a)
    else (c, b, a)

/-- `np.argsort` of three values: the permutation of indices that sorts
`v` ascending (ties broken by index order). -/
noncomputable def argsort3 (v : V3) : Fin 3 → Fin 3 :=
  if v 0 ≤ v 1 then
    if v 1 ≤ v 2 then ![0, 1, 2]
    else if v 0 ≤ v 2 then ![0, 2, 1]
    else ![2, 0, 1]
  else
    if v 0 ≤ v 2 then ![1, 0, 2]
    else if v 1 ≤ v 2 then ![1, 2, 0]
    else ![2, 1, 0]

/-- `noduplicates(a)` from `get_bravais_lattice`: the smallest gap between
consecutive sorted values exceeds `eps`. -/
noncomputable def noduplicates (eps a b c : ℝ) : Prop :=
  let s := sort3 a b c
  eps < min |s.2.1 - s.1| |s.2.2 - s.2.1|

/-- The local `allclose(a, b)` of `get_bravais_lattice` applied to the three
angles against a constant: `np.allclose(angles, t, atol=eps)` (the default
`rtol=1e-5` still applies). -/
def allclose3 (eps : ℝ) (v : V3) (t : ℝ) : Prop :=
  ∀ i : Fin 3, npclose eps np_default_rtol (v i) t

/-- The local `allclose` applied to a two-element list against a constant. -/
def allclose2 (eps x y t : ℝ) : Prop :=
  npclose eps np_default_rtol x t ∧ npclose eps np_default_rtol y t

/-- The local `allclose` on two six-component cell-parameter tuples. -/
def cellpar6_close (eps : ℝ) (p q : V3 × V3) : Prop :=
  (∀ i : Fin 3, npclose eps np_default_rtol (p.1 i) (q.1 i)) ∧
  (∀ i : Fin 3, npclose eps np_default_rtol (p.2 i) (q.2 i))

/-- The local `allclose` on two 3x3 matrices, elementwise. -/
def mat_allclose (eps : ℝ) (M N : Mat3) : Prop :=
  ∀ i j : Fin 3, npclose eps np_default_rtol (M i j) (N i j)

/-- `sum(abs(BC_CA_AB) > eps)`: how many scalar products are nonzero at
tolerance `eps`. -/
noncomputable def countAbsGt (eps : ℝ) (v : V3) : ℕ :=
  (if |v 0| > eps then 1 else 0) + (if |v 1| > eps then 1 else 0) +
  (if |v 2| > eps then 1 else 0)

/-- `BCT._cell(a, c)`: `0.5 * [[-a, a, c], [a, -a, c], [a, a, -c]]`. -/
noncomputable def bct_cell (a c : ℝ) : Mat3 :=
  ![![-(0.5 * a), 0.5 * a, 0.5 * c],
    ![0.5 * a, -(0.5 * a), 0.5 * c],
    ![0.5 * a, 0.5 * a, -(0.5 * c)]]

/-- `TET._cell(a, c)`: `np.diag([a, a, c])`. -/
noncomputable def tet_cell (a c : ℝ) : Mat3 :=
  ![![a, 0, 0], ![0, a, 0], ![0, 0, c]]

/-- `ORCF._cell(a, b, c)`: `0.5 * [[0, b, c], [a, 0, c], [a, b, 0]]`. -/
noncomputable def orcf_cell (a b c : ℝ) : Mat3 :=
  ![![0, 0.5 * b, 0.5 * c], ![0.5 * a, 0, 0.5 * c], ![0.5 * a, 0.5 * b, 0]]

/-- `ORCI._cell(a, b, c)`: `0.5 * [[-a, b, c], [a, -b, c], [a, b, -c]]`. -/
noncomputable def orci_cell (a b c : ℝ) : Mat3 :=
  ![![-(0.5 * a), 0.5 * b, 0.5 * c],
    ![0.5 * a, -(0.5 * b), 0.5 * c],
    ![0.5 * a, 0.5 * b, -(0.5 * c)]]

/-- `MCLC._cell(a, b, c, alpha)`:
`[[a/2, b/2, 0], [-a/2, b/2, 0], [0, c cos(alpha), c sin(alpha)]]`. -/
noncomputable def mclc_cell (a b c alpha : ℝ) : Mat3 :=
  ![![0.5 * a, 0.5 * b, 0],
    ![-(0.5 * a), 0.5 * b, 0],
    ![0, c * Real.cos (alpha * degrees), c * Real.sin (alpha * degrees)]]

/-- `MCLC._variant_name(a, b, c, alpha)` (src lines 740-775): `check_mcl`,
then branch on the reciprocal-cell angle `kgamma`; for `kgamma < 90` branch
further on `num = b cos(alpha)/c + b^2 sin(alpha)^2 / a^2`.  The Python
`if/elif/elif` with no final `else` leaves the local variable unbound when no
case applies (only possible when `eps <= 0` and `kgamma == 90` exactly),
which would raise `NameError`. -/
noncomputable def MCLC_variant_name (eps a b c alpha : ℝ) : Except PyErr String :=
  match check_mcl a b c alpha with
  | .error e => .error e
  | .ok _ =>
    let kgamma := cellpar_angles (reciprocal (mclc_cell a b c alpha)) 2
    if |kgamma - 90| < eps then .ok "MCLC2"
    else if kgamma > 90 then .ok "MCLC1"
    else if kgamma < 90 then
      let num := b * Real.cos (alpha * degrees) / c +
        b * b * Real.sin (alpha * degrees) ^ 2 / (a * a)
      if |num - 1| < eps then .ok "MCLC4"
      else if num < 1 then .ok "MCLC3"
      else .ok "MCLC5"
    else .error .nameError

/-- `MCLC(a, b, c, alpha)` construction with the default tolerance. -/
noncomputable def MCLC_init (a b c alpha : ℝ) : Except PyErr Lattice :=
  match MCLC_variant_name bravais_default_eps a b c alpha with
  | .error e => .error e
  | .ok v => .ok (.MCLC a b c alpha v)

/-! ## The classifier `get_bravais_lattice` (src lines 939-1188)

Each candidate-family test of the fixed cascade becomes a function returning
`none` for fall-through to the next test, or `some result` when the test
fires (where `result` is the returned lattice or a raised exception). -/

/-- The truthiness condition of the local `check(f, *args, axis=...)` helper
for a candidate whose construction cannot raise: the candidate cell's
parameters, cyclically permuted by `axis` (`permutation = (arange(-3, 0) +
axis) % 3`), must match the input cell parameters under `np.allclose` with
its default tolerances. -/
def check_cellpar_match (cand_lengths cand_angles : V3) (axis : Fin 3)
    (ABC angles : V3) : Prop :=
  ∀ j : Fin 3,
    npclose np_default_atol np_default_rtol (cand_lengths (j + axis)) (ABC j) ∧
    npclose np_default_atol np_default_rtol (cand_angles (j + axis)) (angles j)

/-- First `some` element of a list of options: models the fixed, ordered
cascade of candidate-family tests in which the first matching test wins. -/
def firstSome {α : Type} : List (Option α) → Option α
  | [] => none
  | some x :: _ => some x
  | none :: rest => firstSome rest

/-- Lines 1009-1017: the cubic family block.  With all lengths equal, angles
all 90 give `CUB(A)`, all 60 give `FCC(sqrt(2) A)`, and all equal to
`arccos(-1/3)` give `BCC(2 A / sqrt(3))`. -/
noncomputable def branch_cubic (eps : ℝ) (ABC angles : V3)
    (all_lengths_equal : Bool) : Option (Except PyErr (Lattice × Unit)) :=
  if all_lengths_equal then
    if allclose3 eps angles 90 then some (.ok (.CUB (ABC 0), ()))
    else if allclose3 eps angles 60 then some (.ok (.FCC (Real.sqrt 2 * ABC 0), ()))
    else if allclose3 eps angles (Real.arccos (-1 / 3) * 180 / Real.pi) then
      some (.ok (.BCC (2 * ABC 0 / Real.sqrt 3), ()))
    else none
  else none

/-- Lines 1019-1029: the BCT test.  All lengths equal and one distinguished
angle direction `d`; derive `c = 2 sqrt(-y)` with `y = BC_CA_AB[(d+1) % 3]`
and `a = sqrt(2 A^2 - c^2 / 2)`, and fire only when `check(BCT, a, c,
axis=2-d)` reproduces the input cell parameters. -/
noncomputable def branch_bct (ABC angles BC_CA_AB : V3) (all_lengths_equal : Bool)
    (unequal_angle_dir : Option (Fin 3)) : Option (Except PyErr (Lattice × Unit)) :=
  if all_lengths_equal then
    match unequal_angle_dir with
    | some d =>
      let y := BC_CA_AB (d + 1)
      let c := 2 * Real.sqrt (-y)
      let a := Real.sqrt (2 * ABC 0 ^ 2 - 0.5 * c ^ 2)
      if check_cellpar_match (cellpar_lengths (bct_cell a c))
          (cellpar_angles (bct_cell a c)) (2 - d) ABC angles then
        some (.ok (BCT_init a c, ()))
      else none
    | none => none
  else none

/-- Lines 1031-1038: the HEX test.  One distinguished angle direction with a
120/90 pattern; `a^2 = -2 BC_CA_AB[unequal_scalarprod_dir]` must be positive
(`assert a2 > 0`).  When `unequal_scalarprod_dir` is `None`, the numpy
`None` indexing produces a `(1, 3)` array and the `assert` on it raises the
ambiguous-truth `ValueError`. -/
noncomputable def branch_hex (eps : ℝ) (ABC angles BC_CA_AB : V3)
    (unequal_angle_dir unequal_scalarprod_dir : Option (Fin 3)) :
    Option (Except PyErr (Lattice × Unit)) :=
  match unequal_angle_dir with
  | some d =>
    if |angles d - 120| < eps ∧ |angles (d - 1) - 90| < eps then
      match unequal_scalarprod_dir with
      | some sd =>
        let a2 := -2 * BC_CA_AB sd
        if a2 > 0 then some (.ok (.HEX (Real.sqrt a2) (ABC sd), ()))
        else some (.error .assertionError)
      | none => some (.error .valueError)
    else none
  | none => none

/-- Lines 1042-1047: the TET test.  All angles 90 and one distinguished
length direction `d`; `a = ABC[d - 1]`, `c = ABC[d]`, and `assert
check(TET, a, c, axis=2-d)` (an `AssertionError` when the reconstruction
does not match). -/
noncomputable def branch_tet (eps : ℝ) (ABC angles : V3)
    (unequal_length_dir : Option (Fin 3)) : Option (Except PyErr (Lattice × Unit)) :=
  if allclose3 eps angles 90 then
    match unequal_length_dir with
    | some d =>
      let a := ABC (d - 1)
      let c := ABC d
      if check_cellpar_match (cellpar_lengths (tet_cell a c))
          (cellpar_angles (tet_cell a c)) (2 - d) ABC angles then
        some (.ok (.TET a c, ()))
      else some (.error .assertionError)
    | none => none
  else none

/-- Lines 1049-1068: the ORCC test.  One distinguished length direction whose
scalar product is the single nonzero one; derive `a, b` from
`X = ABC[(cdir+1) % 3]^2` and `Y = BC_CA_AB[cdir]`, swapping to `a < b`;
`ORCC` construction raises `UnconventionalLattice` when `a < b` still fails
(i.e. `a == b`). -/
noncomputable def branch_orcc (eps : ℝ) (ABC BC_CA_AB : V3)
    (unequal_length_dir : Option (Fin 3)) : Option (Except PyErr (Lattice × Unit)) :=
  match unequal_length_dir with
  | some cdir =>
    if |BC_CA_AB cdir| > eps ∧ countAbsGt eps BC_CA_AB = 1 then
      let orcc_c := ABC cdir
      let Y := BC_CA_AB cdir
      let X := ABC (cdir + 1) ^ 2
      let a0 := Real.sqrt (2 * (X + Y))
      let b0 := Real.sqrt (2 * (X - Y))
      let ab := if a0 > b0 then (b0, a0) else (a0, b0)
      match ORCC_init ab.1 ab.2 orcc_c with
      | .error e => some (.error e)
      | .ok lat => some (.ok (lat, ()))
    else none
  | none => none

/-- Lines 1075-1078: the ORC test.  All angles 90 and all lengths different:
return `ORC` of the sorted lengths (no validation can fail, since `ORC`
construction performs none). -/
noncomputable def branch_orc (eps : ℝ) (ABC angles : V3)
    (all_lengths_different : Bool) : Option (Except PyErr (Lattice × Unit)) :=
  if allclose3 eps angles 90 ∧ all_lengths_different then
    let s := sort3 (ABC 0) (ABC 1) (ABC 2)
    some (.ok (.ORC s.1 s.2.1 s.2.2, ()))
  else none

/-- Lines 1080-1086: the ORCF test.  All lengths different and no duplicate
scalar products; parameters are `2 sqrt` of the sorted scalar products
(construction may raise `UnconventionalLattice` via `check_orc`), then
`assert allclose(par1, par2)` compares the candidate's cell parameters with
those of the permuted input rows. -/
noncomputable def branch_orcf (eps : ℝ) (BC_CA_AB : V3) (rows : Mat3)
    (all_lengths_different : Bool) : Option (Except PyErr (Lattice × Unit)) :=
  if all_lengths_different ∧ noduplicates eps (BC_CA_AB 0) (BC_CA_AB 1) (BC_CA_AB 2) then
    let s := sort3 (BC_CA_AB 0) (BC_CA_AB 1) (BC_CA_AB 2)
    let pa := 2 * Real.sqrt s.1
    let pb := 2 * Real.sqrt s.2.1
    let pc := 2 * Real.sqrt s.2.2
    match ORCF_variant_name bravais_default_eps pa pb pc with
    | .error e => some (.error e)
    | .ok v =>
      if cellpar6_close eps (cellpar6 (orcf_cell pa pb pc))
          (cellpar6 (permuteRows rows (argsort3 BC_CA_AB))) then
        some (.ok (.ORCF pa pb pc v, ()))
      else some (.error .assertionError)
  else none

/-- Lines 1095-1107: the ORCI test.  All lengths equal; the derived squared
dimensions `-2 (BC_CA_AB[i+1] + BC_CA_AB[i+2])` must all be positive with no
duplicates; `ORCI` of the sorted roots (construction may raise via
`check_orc`), then `assert allclose(lat.tocell(), uc[permutation])`. -/
noncomputable def branch_orci (eps : ℝ) (BC_CA_AB : V3) (rows : Mat3)
    (all_lengths_equal : Bool) : Option (Except PyErr (Lattice × Unit)) :=
  if all_lengths_equal then
    let dims2 : V3 := ![-2 * (BC_CA_AB 1 + BC_CA_AB 2),
                        -2 * (BC_CA_AB 2 + BC_CA_AB 0),
                        -2 * (BC_CA_AB 0 + BC_CA_AB 1)]
    if (∀ i : Fin 3, dims2 i > 0) ∧ noduplicates eps (dims2 0) (dims2 1) (dims2 2) then
      let dims : V3 := fun i => Real.sqrt (dims2 i)
      let perm := argsort3 dims
      match ORCI_init (dims (perm 0)) (dims (perm 1)) (dims (perm 2)) with
      | .error e => some (.error e)
      | .ok lat =>
        if mat_allclose eps (orci_cell (dims (perm 0)) (dims (perm 1)) (dims (perm 2)))
            (permuteRows rows perm) then
          some (.ok (lat, ()))
        else some (.error .assertionError)
    else none
  else none

/-- Lines 1113-1117: the RHL fallback for all-equal lengths:
`alpha = arccos(BC_CA_AB[0] / A^2)`; `RHL` construction raises a plain
`ValueError` when `alpha >= 120`. -/
noncomputable def branch_rhl (ABC BC_CA_AB : V3)
    (all_lengths_equal : Bool) : Option (Except PyErr (Lattice × Unit)) :=
  if all_lengths_equal then
    let cosa := BC_CA_AB 0 / ABC 0 ^ 2
    let rhl_alpha := Real.arccos cosa * 180 / Real.pi
    match RHL_init (ABC 0) rhl_alpha with
    | .error e => .some (.error e)
    | .ok lat => some (.ok (lat, ()))
  else none

/-- Lines 1124-1148: the MCL test.  One distinguished scalar-product
direction `d` with the other two angles at 90: `assert angles[d] < 90`,
derive `a = ABC[d]`, `b, c` the other two lengths swapped so `b <= c`,
`assert a < c`, then `MCL` construction (`check_mcl` may still raise). -/
noncomputable def branch_mcl (eps : ℝ) (ABC angles : V3)
    (unequal_scalarprod_dir : Option (Fin 3)) : Option (Except PyErr (Lattice × Unit)) :=
  match unequal_scalarprod_dir with
  | some d =>
    let mcl_alpha := angles d
    if allclose2 eps (angles (d - 1)) (angles (d - 2)) 90 then
      if mcl_alpha < 90 then
        let mcl_a := ABC d
        let mb := ABC (d - 1)
        let mc := ABC (d - 2)
        let bc := if mc < mb then (mc, mb) else (mb, mc)
        if mcl_a < bc.2 then
          match MCL_init mcl_a bc.1 bc.2 mcl_alpha with
          | .error e => some (.error e)
          | .ok lat => some (.ok (lat, ()))
        else some (.error .assertionError)
      else some (.error .assertionError)
    else none
  | none => none

/-- Lines 1165-1176: the MCLC test.  One distinguished length direction
`cdir`: `c = ABC[cdir]`, `b = sqrt(2 (L^2 + BC_CA_AB[cdir]))` with
`L = ABC[cdir - 1]`, `a = sqrt(4 L^2 - b^2)`,
`alpha = arccos(2 BC_CA_AB[cdir - 1] / (b c))`; `assert alpha < 90`, then
`MCLC` construction (which may raise via `check_mcl`). -/
noncomputable def branch_mclc (ABC BC_CA_AB : V3)
    (unequal_length_dir : Option (Fin 3)) : Option (Except PyErr (Lattice × Unit)) :=
  match unequal_length_dir with
  | some cdir =>
    let mclc_c := ABC cdir
    let L := ABC (cdir - 1)
    let mclc_b := Real.sqrt (2 * (L ^ 2 + BC_CA_AB cdir))
    let mclc_a := Real.sqrt (4 * L ^ 2 - mclc_b ^ 2)
    let cosa := 2 * BC_CA_AB (cdir - 1) / (mclc_b * mclc_c)
    let mclc_alpha := Real.arccos cosa * 180 / Real.pi
    if mclc_alpha < 90 then
      match MCLC_init mclc_a mclc_b mclc_c mclc_alpha with
      | .error e => some (.error e)
      | .ok lat => some (.ok (lat, ()))
    else some (.error .assertionError)
  | none => none

/-- Lines 1182-1188, the final triclinic fallback.  `obj = check(TRI, A, B,
C, *angles)` is the outcome of the reconstruction test (abstracted here,
since it goes through the external `Cell.new`; every outcome is covered).
When `obj` is truthy the body evaluates the undefined name `xxxxxxxxxxx`
before reaching `return obj`, raising `NameError`; when `obj` is falsy the
function raises `RuntimeError('Cannot recognize cell at all somehow!')`; an
exception from the computation of `obj` itself propagates. -/
def tri_fallback (triCheck : Except PyErr (Option Unit)) :
    Except PyErr (Lattice × Unit) :=
  match triCheck with
  | .error e => .error e
  | .ok (some _) => .error .nameError
  | .ok none => .error .runtimeError

/-- The body of `get_bravais_lattice` after cell reduction, as a function of
the reduced cell's lengths `ABC`, `angles`, scalar products `BC_CA_AB`
(`b.c, c.a, a.b`), the reduced rows themselves, the tolerance `eps`, and the
abstracted outcome of the final triclinic `check`.  The three
`categorize_differences` calls run first (either may raise); then the fixed
cascade of family tests; then the triclinic fallback. -/
noncomputable def classify_core (ABC angles BC_CA_AB : V3) (rows : Mat3)
    (eps : ℝ) (triCheck : Except PyErr (Option Unit)) :
    Except PyErr (Lattice × Unit) :=
  match categorize_differences eps (ABC 0) (ABC 1) (ABC 2) with
  | .error e => .error e
  | .ok (all_lengths_equal, all_lengths_different, unequal_length_dir) =>
    match categorize_differences eps (angles 0) (angles 1) (angles 2) with
    | .error e => .error e
    | .ok (_, _, unequal_angle_dir) =>
      match categorize_differences eps (BC_CA_AB 0) (BC_CA_AB 1) (BC_CA_AB 2) with
      | .error e => .error e
      | .ok (_, _, unequal_scalarprod_dir) =>
        match firstSome
          [branch_cubic eps ABC angles all_lengths_equal,
           branch_bct ABC angles BC_CA_AB all_lengths_equal unequal_angle_dir,
           branch_hex eps ABC angles BC_CA_AB unequal_angle_dir unequal_scalarprod_dir,
           branch_tet eps ABC angles unequal_length_dir,
           branch_orcc eps ABC BC_CA_AB unequal_length_dir,
           branch_orc eps ABC angles all_lengths_different,
           branch_orcf eps BC_CA_AB rows all_lengths_different,
           branch_orci eps BC_CA_AB rows all_lengths_equal,
           branch_rhl ABC BC_CA_AB all_lengths_equal,
           branch_mcl eps ABC angles unequal_scalarprod_dir,
           branch_mclc ABC BC_CA_AB unequal_length_dir] with
        | some r => r
        | none => tri_fallback triCheck

/-- `get_bravais_lattice(uc, eps)` on an already reduced cell (niggli
reduction is the external primitive `ase.build.tools.niggli_reduce_cell`;
quantifying over `rows` covers every cell it can return).  Computes the cell
parameters and the three pairwise scalar products `b.c, c.a, a.b` of the
rows and runs the classification cascade. -/
noncomputable def get_bravais_lattice (rows : Mat3) (eps : ℝ)
    (triCheck : Except PyErr (Option Unit)) : Except PyErr (Lattice × Unit) :=
  classify_core (cellpar_lengths rows) (cellpar_angles rows)
    ![dot3 (rows 1) (rows 2), dot3 (rows 2) (rows 0), dot3 (rows 0) (rows 1)]
    rows eps triCheck

/-- `True` exactly when the classifier result is a successfully returned TRI
lattice. -/
def isTriResult : Except PyErr (Lattice × Unit) → Bool
  | .ok (l, _) => famOf l == Fam.TRI
  | .error _ => false

/-! ## Special points and k-point labels

`parse_path_string` lives in `ase.dft.kpoints`, outside the analysed
sources; its tokenization is modelled from spec section 4.4.  The
special-point coordinate lists below are transcribed from the family
classes' `_special_points` methods. -/

/-- Modelled from the spec (section 4.4): tokenize a concatenation of point
labels, each one letter optionally followed by a single digit (for example
`"GXZZ1M"` becomes `["G", "X", "Z", "Z1", "M"]`). -/
def label_split : List Char → List String
  | [] => []
  | [ch] => [String.mk [ch]]
  | ch :: d :: rest =>
    if d.isDigit then String.mk [ch, d] :: label_split rest
    else String.mk [ch] :: label_split (d :: rest)

/-- Number of k-point labels declared by a variant's special-point-names
string (`BravaisLattice.kpoint_labels`, via `parse_path_string`). -/
def kpoint_label_count (names : String) : ℕ := (label_split names.toList).length

/-- The static special points of the single-variant families CUB, FCC, BCC,
TET, ORC are built by the `@bravais` decorator (src lines 372-378): it walks
the characters of `special_point_names`, renames `'G'` to `'Gamma'`, and
appends the external `ibz_points` table's entry for each name.  The table
itself lives in `ase.dft.kpoints` (modelled from the spec as an arbitrary
partial lookup); the loop structure appending exactly one point per name is
from the source. -/
def build_static_points (pointinfo : String → Option (ℝ × ℝ × ℝ)) :
    List Char → Option (List (ℝ × ℝ × ℝ))
  | [] => some []
  | ch :: rest =>
    match pointinfo (if ch = 'G' then "Gamma" else String.mk [ch]),
          build_static_points pointinfo rest with
    | some p, some ps => some (p :: ps)
    | _, _ => none

/-- The inline `pointinfo` dict used by the decorator for HEX
(src lines 365-370). -/
noncomputable def hex_pointinfo : String → Option (ℝ × ℝ × ℝ) := fun n =>
  if n = "Gamma" then some (0, 0, 0)
  else if n = "M" then some (0, 1/2, 0)
  else if n = "K" then some (1/3, 1/3, 0)
  else if n = "A" then some (0, 0, 1/2)
  else if n = "L" then some (0, 1/2, 1/2)
  else if n = "H" then some (1/3, 1/3, 1/2)
  else none

/-- `BCT._special_points(a, c, variant)`: asserts the variant is one of the
registered ones, then returns the 7-point BCT1 list or the 9-point BCT2
list. -/
noncomputable def BCT_special_points (a c : ℝ) (vname : String) :
    Except PyErr (List (ℝ × ℝ × ℝ)) :=
  if vname = "BCT1" ∨ vname = "BCT2" then
    if vname = "BCT1" then
      let eta := 0.25 * (1 + c * c / (a * a))
      .ok [(0, 0, 0), (-0.5, 0.5, 0.5), (0, 0.5, 0), (0.25, 0.25, 0.25),
           (0, 0, 0.5), (eta, eta, -eta), (-eta, 1 - eta, eta)]
    else
      let eta := 0.25 * (1 + a * a / (c * c))
      let zeta := 0.5 * a * a / (c * c)
      .ok [(0, 0, 0), (0, 0.5, 0), (0.25, 0.25, 0.25), (-eta, eta, eta),
           (eta, 1 - eta, -eta), (0, 0, 0.5), (-zeta, zeta, 0.5),
           (0.5, 0.5, -zeta), (0.5, 0.5, -0.5)]
  else .error .assertionError

/-- `ORCF._special_points(a, b, c, variant)`: the shared ORCF1/ORCF3 list of
9 points or the ORCF2 list of 11 points (`assert variant.name == 'ORCF2'`
otherwise). -/
noncomputable def ORCF_special_points (a b c : ℝ) (vname : String) :
    Except PyErr (List (ℝ × ℝ × ℝ)) :=
  let xminus := 0.25 * (1 + a * a / (b * b) - a * a / (c * c))
  let xplus := 0.25 * (1 + a * a / (b * b) + a * a / (c * c))
  if vname = "ORCF1" ∨ vname = "ORCF3" then
    let zeta := xminus
    let eta := xplus
    .ok [(0, 0, 0), (0.5, 0.5 + zeta, zeta), (0.5, 0.5 - zeta, 1 - zeta),
         (0.5, 0.5, 0.5), (1, 0.5, 0.5), (0, eta, eta),
         (1, 1 - eta, 1 - eta), (0.5, 0, 0.5), (0.5, 0.5, 0)]
  else if vname = "ORCF2" then
    let phi := 0.25 * (1 + c * c / (b * b) - c * c / (a * a))
    let delta := 0.25 * (1 + b * b / (a * a) - b * b / (c * c))
    let eta := xminus
    .ok [(0, 0, 0), (0.5, 0.5 - eta, 1 - eta), (0.5, 0.5 + eta, eta),
         (0.5 - delta, 0.5, 1 - delta), (0.5 + delta, 0.5, delta),
         (0.5, 0.5, 0.5), (1 - phi, 0.5 - phi, 0.5), (phi, 0.5 + phi, 0.5),
         (0, 0.5, 0.5), (0.5, 0, 0.5), (0.5, 0.5, 0)]
  else .error .assertionError

/-- `ORCI._special_points(a, b, c, variant)`: 13 points. -/
noncomputable def ORCI_special_points (a b c : ℝ) : List (ℝ × ℝ × ℝ) :=
  let zeta := 0.25 * (1 + a * a / (c * c))
  let eta := 0.25 * (1 + b * b / (c * c))
  let delta := 0.25 * (b * b - a * a) / (c * c)
  let mu := 0.25 * (a * a + b * b) / (c * c)
  [(0, 0, 0), (-mu, mu, 0.5 - delta), (mu, -mu, 0.5 + delta),
   (0.5 - delta, 0.5 + delta, -mu), (0, 0.5, 0), (0.5, 0, 0), (0, 0, 0.5),
   (0.25, 0.25, 0.25), (-zeta, zeta, zeta), (zeta, 1 - zeta, -zeta),
   (eta, -eta, eta), (1 - eta, eta, -eta), (0.5, 0.5, -0.5)]

/-- `ORCC._special_points(a, b, c, variant)`: 10 points. -/
noncomputable def ORCC_special_points (a b : ℝ) : List (ℝ × ℝ × ℝ) :=
  let zeta := 0.25 * (1 + a * a / (b * b))
  [(0, 0, 0), (zeta, zeta, 0.5), (-zeta, 1 - zeta, 0.5), (0, 0.5, 0.5),
   (0, 0.5, 0), (-0.5, 0.5, 0.5), (zeta, zeta, 0), (-zeta, 1 - zeta, 0),
   (-0.5, 0.5, 0), (0, 0, 0.5)]

/-- `RHL._special_points(a, alpha, variant)`: 12 points for RHL1, 8 for
RHL2. -/
noncomputable def RHL_special_points (alpha : ℝ) (vname : String) :
    List (ℝ × ℝ × ℝ) :=
  if vname = "RHL1" then
    let cosa := Real.cos (alpha * degrees)
    let eta := (1 + 4 * cosa) / (2 + 4 * cosa)
    let nu := 0.75 - 0.5 * eta
    [(0, 0, 0), (eta, 0.5, 1 - eta), (0.5, 1 - eta, eta - 1), (0.5, 0.5, 0),
     (0.5, 0, 0), (0, 0, -0.5), (eta, nu, nu), (1 - nu, 1 - nu, 1 - eta),
     (nu, nu, eta - 1), (1 - nu, nu, 0), (nu, 0, -nu), (0.5, 0.5, 0.5)]
  else
    let eta := 1 / (2 * Real.tan (alpha * degrees / 2) ^ 2)
    let nu := 0.75 - 0.5 * eta
    [(0, 0, 0), (0.5, -0.5, 0), (0.5, 0, 0), (1 - nu, -nu, 1 - nu),
     (nu, nu - 1, nu - 1), (eta, eta, eta), (1 - eta, -eta, -eta),
     (0.5, -0.5, 0.5)]

/-- `MCL._special_points(a, b, c, alpha, variant)`: 16 points. -/
noncomputable def MCL_special_points (b c alpha : ℝ) : List (ℝ × ℝ × ℝ) :=
  let cosa := Real.cos (alpha * degrees)
  let eta := (1 - b * cosa / c) / (2 * Real.sin (alpha * degrees) ^ 2)
  let nu := 0.5 - eta * c * cosa / b
  [(0, 0, 0), (0.5, 0.5, 0), (0, 0.5, 0.5), (0.5, 0, 0.5), (0.5, 0, -0.5),
   (0.5, 0.5, 0.5), (0, eta, 1 - nu), (0, 1 - eta, nu), (0, eta, -nu),
   (0.5, eta, 1 - nu), (0.5, 1 - eta, nu), (0.5, eta, -nu), (0, 0.5, 0),
   (0, 0, 0.5), (0, 0, -0.5), (0.5, 0, 0)]

/-- `MCLC._special_points(a, b, c, alpha, variant)`: 17 points for variants
1-2 and 3-4, 19 points for variant 5; any other variant digit leaves the
Python local `points` unbound (`NameError`). -/
noncomputable def MCLC_special_points (a b c alpha : ℝ) (vname : String) :
    Except PyErr (List (ℝ × ℝ × ℝ)) :=
  let cosa := Real.cos (alpha * degrees)
  let sina := Real.sin (alpha * degrees)
  let sina2 := sina ^ 2
  if vname = "MCLC1" ∨ vname = "MCLC2" then
    let zeta := (2 - b * cosa / c) / (4 * sina2)
    let eta := 0.5 + 2 * zeta * c * cosa / b
    let psi := 0.75 - a * a / (4 * b * b * sina * sina)
    let phi := psi + (0.75 - psi) * b * cosa / c
    .ok [(0, 0, 0), (0.5, 0, 0), (0, -0.5, 0), (1 - zeta, 1 - zeta, 1 - eta),
         (zeta, zeta, eta), (-zeta, -zeta, 1 - eta), (1 - zeta, -zeta, 1 - eta),
         (phi, 1 - phi, 0.5), (1 - phi, phi - 1, 0.5), (0.5, 0.5, 0.5),
         (0.5, 0, 0.5), (1 - psi, psi - 1, 0), (psi, 1 - psi, 0),
         (psi - 1, -psi, 0), (0.5, 0.5, 0), (-0.5, -0.5, 0), (0, 0, 0.5)]
  else if vname = "MCLC3" ∨ vname = "MCLC4" then
    let mu := 0.25 * (1 + b * b / (a * a))
    let delta := b * c * cosa / (2 * a * a)
    let zeta := mu - 0.25 + (1 - b * cosa / c) / (4 * sina2)
    let eta := 0.5 + 2 * zeta * c * cosa / b
    let phi := 1 + zeta - 2 * mu
    let psi := eta - 2 * delta
    .ok [(0, 0, 0), (1 - phi, 1 - phi, 1 - psi), (phi, phi - 1, psi),
         (1 - phi, -phi, 1 - psi), (zeta, zeta, eta), (1 - zeta, -zeta, 1 - eta),
         (-zeta, -zeta, 1 - eta), (0.5, -0.5, 0.5), (0.5, 0, 0.5),
         (0.5, 0, 0), (0, -0.5, 0), (0.5, -0.5, 0), (mu, mu, delta),
         (1 - mu, -mu, -delta), (-mu, -mu, -delta), (mu, mu - 1, delta),
         (0, 0, 0.5)]
  else if vname = "MCLC5" then
    let zeta := 0.25 * (b * b / (a * a) + (1 - b * cosa / c) / sina2)
    let eta := 0.5 + 2 * zeta * c * cosa / b
    let mu := 0.5 * eta + b * b / (4 * a * a) - b * c * cosa / (2 * a * a)
    let nu := 2 * mu - zeta
    let omega := (4 * nu - 1 - b * b * sina2 / (a * a)) * c / (2 * b * cosa)
    let delta := zeta * c * cosa / b + omega / 2 - 0.25
    let rho := 1 - zeta * a * a / (b * b)
    .ok [(0, 0, 0), (nu, nu, omega), (1 - nu, 1 - nu, 1 - omega),
         (nu, nu - 1, omega), (zeta, zeta, eta), (1 - zeta, -zeta, 1 - eta),
         (-zeta, -zeta, 1 - eta), (rho, 1 - rho, 0.5), (1 - rho, rho - 1, 0.5),
         (0.5, 0.5, 0.5), (0.5, 0, 0.5), (0.5, 0, 0), (0, -0.5, 0),
         (0.5, -0.5, 0), (mu, mu, delta), (1 - mu, -mu, -delta),
         (-mu, -mu, -delta), (mu, mu - 1, delta), (0, 0, 0.5)]
  else .error .nameError

/-- `TRI._special_points(...)`: one fixed 8-point list for TRI1a/TRI2a,
another for TRI1b/TRI2b (no parameter dependence). -/
noncomputable def TRI_special_points (vname : String) : List (ℝ × ℝ × ℝ) :=
  if vname = "TRI1a" ∨ vname = "TRI2a" then
    [(0, 0, 0), (0.5, 0.5, 0), (0, 0.5, 0.5), (0.5, 0, 0.5), (0.5, 0.5, 0.5),
     (0.5, 0, 0), (0, 0.5, 0), (0, 0, 0.5)]
  else
    [(0, 0, 0), (0.5, -0.5, 0), (0, 0, 0.5), (-0.5, -0.5, 0.5), (0, -0.5, 0.5),
     (0, -0.5, 0), (0.5, 0, 0), (-0.5, 0, 0.5)]

/-! ## Theorems -/

/-- Helper: the static-points builder preserves the label count whenever
every lookup succeeds. -/
theorem build_static_points_some_length (pointinfo : String → Option (ℝ × ℝ × ℝ)) :
    ∀ (names : List Char) (r : List (ℝ × ℝ × ℝ)),
      build_static_points pointinfo names = some r → r.length = names.length := by
  intro names
  induction names with
  | nil => intro r h; simp [build_static_points] at h; simp [← h]
  | cons ch rest ih =>
    intro r h
    unfold build_static_points at h
    cases hp : pointinfo (if ch = 'G' then "Gamma" else String.mk [ch]) with
    | none => rw [hp] at h; simp at h
    | some p =>
      cases hr : build_static_points pointinfo rest with
      | none => rw [hp, hr] at h; simp at h
      | some ps =>
        rw [hp, hr] at h
        simp at h
        simp [← h, ih ps hr]

/-- C2 (code bug): `ORC(a=3, b=2, c=1)` does not raise: construction resolves
the variant through `SimpleBravaisLattice._variant_name`, which never calls
`check_orc`, so the object is built despite `a < b < c` failing; the
`UnconventionalLattice` error only appears later, when `tocell`/`_cell` runs
`check_orc`. -/
theorem orc_unordered_constructs_without_error :
    ORC_init 3 2 1 = .ok (.ORC 3 2 1) ∧
    ORC_tocell 3 2 1 = .error .unconventionalLattice := by
  refine ⟨rfl, ?_⟩
  have h : ¬((3 : ℝ) < 2 ∧ (2 : ℝ) < 1) := by
    push_neg
    intro h
    linarith
  simp [ORC_tocell, check_orc, h]

/-- C3 (counterexample): with `eps = 1` and lengths `(1, 1, 2)`, the pairs
`(1, 2)` differ by exactly `eps` yet are not classified as equal: the result
is not the all-equal pattern but the one-distinguished-direction pattern
(`funny_direction = 2`, from the single pair `(1, 1)` within `eps`).  Had
exact-`eps` pairs counted as equal, all three pairs would have been equal. -/
theorem categorize_exact_eps_counterexample :
    categorize_differences 1 1 1 2 = .ok (false, false, some 2) := by
  have h1 : ¬ |(1 : ℝ) - 2| < 1 := by rw [abs_sub_lt_iff]; push_neg; intro h; linarith
  have h2 : ¬ |(2 : ℝ) - 1| < 1 := by rw [abs_sub_lt_iff]; push_neg; intro h; linarith
  have h3 : |(1 : ℝ) - 1| < 1 := by norm_num
  simp [categorize_differences, neq_count, h1, h2, h3]

/-- C3 (amended): the comparison is strict: two lengths differing by exactly
`eps` -- or by anything at least `eps` -- are classified as different (they
form the distinguished direction when the remaining pair is equal); only a
difference strictly below `eps` counts as equal. -/
theorem categorize_strict_boundary (eps x d : ℝ) (heps : 0 < eps) (hd : eps ≤ d) :
    categorize_differences eps x x (x + d) = .ok (false, false, some 2) := by
  have h1 : ¬ |d| < eps := by
    rw [abs_of_nonneg (le_trans heps.le hd)]
    linarith
  simp [categorize_differences, neq_count, h1, heps]

/-- Witness for C3's amended theorem at `eps = 1`, `x = 0`, `d = 1`. -/
theorem categorize_strict_boundary_witness :
    categorize_differences 1 0 0 (0 + 1) = .ok (false, false, some 2) :=
  categorize_strict_boundary 1 0 1 (by norm_num) (by norm_num)

/-- C8 (counterexample): closeness within `eps` is not transitive, so the
exactly-two-equal pattern is possible and the internal assertion fails.  At
the default tolerance `eps = 2e-4 = 1/5000`, the lengths
`(1, 1 + 1.5e-4, 1 + 3e-4)` have pairs `(a, b)` and `(b, c)` within `eps`
but `(a, c)` not, and `categorize_differences` raises `AssertionError`. -/
theorem categorize_two_equal_pairs_counterexample :
    categorize_differences (1/5000) 1 (1 + 3/20000) (1 + 3/10000) =
      .error .assertionError := by
  norm_num [categorize_differences, neq_count, abs_sub_lt_iff, abs_lt]

/-- C8 (amended): whenever exactly two of the three pairs of a triple lie
strictly within `eps`, `categorize_differences` fails its `assert neq != 2`
and raises `AssertionError` -- the pattern is real but surfaces as an
assertion failure rather than as a classification outcome. -/
theorem categorize_two_equal_pairs_asserts (eps a b c : ℝ)
    (h : neq_count eps a b c = 2) :
    categorize_differences eps a b c = .error .assertionError := by
  simp [categorize_differences, h]

/-- Witness for C8's amended theorem at `eps = 1` and the triple
`(0, 1/2, 1)`. -/
theorem categorize_two_equal_pairs_asserts_witness :
    neq_count 1 0 (1/2) 1 = 2 ∧
    categorize_differences 1 0 (1/2) 1 = .error .assertionError := by
  have hcount : neq_count 1 0 (1/2) 1 = 2 := by
    norm_num [neq_count, abs_sub_lt_iff, abs_lt]
  exact ⟨hcount, categorize_two_equal_pairs_asserts 1 0 (1/2) 1 hcount⟩

/-- C6: for every `k > 0`, `BCT(a=2k, c=k)` (so `c < a`) resolves variant
`BCT1` and `BCT(a=k, c=2k)` (so `c > a`) resolves variant `BCT2`. -/
theorem bct_variant_boundary (k : ℝ) (hk : 0 < k) :
    (BCT_init (2 * k) k).variantName = some "BCT1" ∧
    (BCT_init k (2 * k)).variantName = some "BCT2" := by
  constructor
  · have h : k < 2 * k := by linarith
    simp [BCT_init, BCT_variant_name, Lattice.variantName, h]
  · have h : ¬ 2 * k < k := by linarith
    simp [BCT_init, BCT_variant_name, Lattice.variantName, h]

/-- Witness for C6 at `k = 1`. -/
theorem bct_variant_boundary_witness :
    (BCT_init (2 * 1) 1).variantName = some "BCT1" ∧
    (BCT_init 1 (2 * 1)).variantName = some "BCT2" :=
  bct_variant_boundary 1 (by norm_num)

/-- C9: `BCT(a=a, c=a)` constructs successfully and resolves variant `BCT2`:
the comparison `c < a` in `BCT._variant_name` is strict and not gated by
`eps`, so exact equality falls to the `else` branch. -/
theorem bct_equal_parameters_select_bct2 (a : ℝ) (_ha : 0 < a) :
    (BCT_init a a).variantName = some "BCT2" := by
  simp [BCT_init, BCT_variant_name, Lattice.variantName, lt_irrefl]

/-- Witness for C9 at `a = 1`. -/
theorem bct_equal_parameters_select_bct2_witness :
    (BCT_init 1 1).variantName = some "BCT2" :=
  bct_equal_parameters_select_bct2 1 (by norm_num)

/-- C10: `RHL(a, alpha)` with `alpha >= 120` raises a plain `ValueError`
(the `PyErr.valueError` constructor, distinct from the
`PyErr.unconventionalLattice` signal) before any parameter is stored; with
`alpha < 120` construction proceeds to variant resolution and succeeds with
variant `RHL1` or `RHL2`. -/
theorem rhl_alpha_validation (a alpha : ℝ) :
    (120 ≤ alpha → RHL_init a alpha = .error .valueError ∧
      PyErr.valueError ≠ PyErr.unconventionalLattice) ∧
    (alpha < 120 →
      ∃ v, RHL_init a alpha = .ok (.RHL a alpha v) ∧
        (v = "RHL1" ∨ v = "RHL2")) := by
  constructor
  · intro h
    refine ⟨by simp [RHL_init, h], by simp⟩
  · intro h
    refine ⟨RHL_variant_name alpha, ?_, ?_⟩
    · simp [RHL_init, not_le.mpr h]
    · by_cases h90 : alpha < 90
      · exact Or.inl (by simp [RHL_variant_name, h90])
      · exact Or.inr (by simp [RHL_variant_name, h90])

/-- Helper: the static-points builder yields exactly one point per name
character whenever it succeeds. -/
theorem static_points_count (pointinfo : String → Option (ℝ × ℝ × ℝ))
    (s : List Char) :
    (build_static_points pointinfo s).elim True
      (fun pts => pts.length = s.length) := by
  cases h : build_static_points pointinfo s with
  | none => trivial
  | some pts => simpa using build_static_points_some_length pointinfo s pts h

/-- C7: for every family and variant, the special-points formula produces
exactly as many points as the variant's declared k-point label string
tokenizes to, in the positional order of that label list.  Multi-variant
families' coordinate lists are transcribed from the source; single-variant
families CUB/FCC/BCC/TET/ORC build their static points by looking up each
label in the external `ibz_points` table (one point appended per label, so
the count is preserved for any table on which the lookups succeed); HEX uses
the inline table from the source. -/
theorem special_points_count_matches_labels (a b c alpha : ℝ)
    (pointinfo : String → Option (ℝ × ℝ × ℝ)) :
    (build_static_points pointinfo "GXRM".toList).elim True
      (fun pts => pts.length = kpoint_label_count "GXRM") ∧
    (build_static_points pointinfo "GKLUWX".toList).elim True
      (fun pts => pts.length = kpoint_label_count "GKLUWX") ∧
    (build_static_points pointinfo "GHPN".toList).elim True
      (fun pts => pts.length = kpoint_label_count "GHPN") ∧
    (build_static_points pointinfo "GAMRXZ".toList).elim True
      (fun pts => pts.length = kpoint_label_count "GAMRXZ") ∧
    (build_static_points pointinfo "GRSTUXYZ".toList).elim True
      (fun pts => pts.length = kpoint_label_count "GRSTUXYZ") ∧
    (∃ pts, build_static_points hex_pointinfo "GMKALH".toList = some pts ∧
      pts.length = kpoint_label_count "GMKALH") ∧
    (BCT_special_points a c "BCT1").map List.length =
      .ok (kpoint_label_count "GMNPXZZ1") ∧
    (BCT_special_points a c "BCT2").map List.length =
      .ok (kpoint_label_count "GNPSS1XYY1Z") ∧
    (ORCF_special_points a b c "ORCF1").map List.length =
      .ok (kpoint_label_count "GAA1LTXX1YZ") ∧
    (ORCF_special_points a b c "ORCF2").map List.length =
      .ok (kpoint_label_count "GCC1DD1LHH1XYZ") ∧
    (ORCF_special_points a b c "ORCF3").map List.length =
      .ok (kpoint_label_count "GAA1LTXX1YZ") ∧
    (ORCI_special_points a b c).length = kpoint_label_count "GLL1L2RSTWXX1YY1Z" ∧
    (ORCC_special_points a b).length = kpoint_label_count "GAA1RSTXX1YZ" ∧
    (RHL_special_points alpha "RHL1").length = kpoint_label_count "GBB1FLL1PP1P2QXZ" ∧
    (RHL_special_points alpha "RHL2").length = kpoint_label_count "GFLPP1QQ1Z" ∧
    (MCL_special_points b c alpha).length = kpoint_label_count "GACDD1EHH1H2MM1M2XYY1Z" ∧
    (MCLC_special_points a b c alpha "MCLC1").map List.length =
      .ok (kpoint_label_count "GNN1FF1F2F3II1LMXX1X2YY1Z") ∧
    (MCLC_special_points a b c alpha "MCLC2").map List.length =
      .ok (kpoint_label_count "GNN1FF1F2F3II1LMXX1X2YY1Z") ∧
    (MCLC_special_points a b c alpha "MCLC3").map List.length =
      .ok (kpoint_label_count "GFF1F2HH1H2IMNN1XYY1Y2Y3Z") ∧
    (MCLC_special_points a b c alpha "MCLC4").map List.length =
      .ok (kpoint_label_count "GFF1F2HH1H2IMNN1XYY1Y2Y3Z") ∧
    (MCLC_special_points a b c alpha "MCLC5").map List.length =
      .ok (kpoint_label_count "GFF1F2HH1H2II1LMNN1XYY1Y2Y3Z") ∧
    (TRI_special_points "TRI1a").length = kpoint_label_count "GLMNRXYZ" ∧
    (TRI_special_points "TRI2a").length = kpoint_label_count "GLMNRXYZ" ∧
    (TRI_special_points "TRI1b").length = kpoint_label_count "GLMNRXYZ" ∧
    (TRI_special_points "TRI2b").length = kpoint_label_count "GLMNRXYZ" := by
  refine ⟨static_points_count pointinfo _, static_points_count pointinfo _,
    static_points_count pointinfo _, static_points_count pointinfo _,
    static_points_count pointinfo _,
    ⟨[(0, 0, 0), (0, 1/2, 0), (1/3, 1/3, 0), (0, 0, 1/2), (0, 1/2, 1/2),
      (1/3, 1/3, 1/2)], rfl, rfl⟩,
    rfl, rfl, rfl, rfl, rfl, rfl, rfl, ?_, ?_, rfl,
    rfl, rfl, rfl, rfl, rfl, ?_, ?_, ?_, ?_⟩
  · simp [RHL_special_points, kpoint_label_count, label_split]
  · simp [RHL_special_points, kpoint_label_count, label_split]
  · simp [TRI_special_points, kpoint_label_count, label_split]
  · simp [TRI_special_points, kpoint_label_count, label_split]
  · simp [TRI_special_points, kpoint_label_count, label_split]
  · simp [TRI_special_points, kpoint_label_count, label_split]

/-- Witness for C10 at `(a, alpha) = (1, 130)` and `(1, 60)`. -/
theorem rhl_alpha_validation_witness :
    (RHL_init 1 130 = .error .valueError ∧
      PyErr.valueError ≠ PyErr.unconventionalLattice) ∧
    ∃ v, RHL_init 1 60 = .ok (.RHL 1 60 v) ∧ (v = "RHL1" ∨ v = "RHL2") :=
  ⟨(rhl_alpha_validation 1 130).1 (by norm_num),
   (rhl_alpha_validation 1 60).2 (by norm_num)⟩

/-- C4 (code bug): every outcome of the triclinic fallback is an exception:
an error from the `check` computation propagates, a matching check runs into
the undefined name `xxxxxxxxxxx` (`NameError`), and a non-matching check
falls to the generic `RuntimeError`.  The fallback can never return a TRI
lattice. -/
theorem tri_fallback_always_raises (triCheck : Except PyErr (Option Unit)) :
    ∃ e, tri_fallback triCheck = .error e := by
  rcases triCheck with e | o
  · exact ⟨e, rfl⟩
  · rcases o with _ | u
    · exact ⟨.runtimeError, rfl⟩
    · exact ⟨.nameError, rfl⟩

/-- Helper: the fallback never produces a TRI success. -/
theorem tri_fallback_not_tri (tc : Except PyErr (Option Unit)) :
    isTriResult (tri_fallback tc) = false := by
  rcases tc with e | o
  · rfl
  · rcases o with _ | u <;> rfl

/-- Helper: a successful `ORCC` construction is an ORCC lattice. -/
theorem orcc_init_fam (a b c : ℝ) (lat : Lattice)
    (h : ORCC_init a b c = .ok lat) : famOf lat = Fam.ORCC := by
  unfold ORCC_init at h
  split_ifs at h
  all_goals first
    | exact Except.noConfusion h
    | (injection h with h2; subst h2; rfl)

/-- Helper: a successful `ORCI` construction is an ORCI lattice. -/
theorem orci_init_fam (a b c : ℝ) (lat : Lattice)
    (h : ORCI_init a b c = .ok lat) : famOf lat = Fam.ORCI := by
  unfold ORCI_init at h
  split at h
  all_goals first
    | exact Except.noConfusion h
    | (injection h with h2; subst h2; rfl)

/-- Helper: a successful `RHL` construction is an RHL lattice. -/
theorem rhl_init_fam (a alpha : ℝ) (lat : Lattice)
    (h : RHL_init a alpha = .ok lat) : famOf lat = Fam.RHL := by
  unfold RHL_init at h
  split_ifs at h
  all_goals first
    | exact Except.noConfusion h
    | (injection h with h2; subst h2; rfl)

/-- Helper: a successful `MCL` construction is an MCL lattice. -/
theorem mcl_init_fam (a b c alpha : ℝ) (lat : Lattice)
    (h : MCL_init a b c alpha = .ok lat) : famOf lat = Fam.MCL := by
  unfold MCL_init at h
  split at h
  all_goals first
    | exact Except.noConfusion h
    | (injection h with h2; subst h2; rfl)

/-- Helper: a successful `MCLC` construction is an MCLC lattice. -/
theorem mclc_init_fam (a b c alpha : ℝ) (lat : Lattice)
    (h : MCLC_init a b c alpha = .ok lat) : famOf lat = Fam.MCLC := by
  unfold MCLC_init at h
  split at h
  all_goals first
    | exact Except.noConfusion h
    | (injection h with h2; subst h2; rfl)

/-- Helper: the cubic-family test never yields a TRI lattice. -/
theorem branch_cubic_not_tri (eps : ℝ) (ABC angles : V3) (ale : Bool)
    (r : Except PyErr (Lattice × Unit))
    (h : branch_cubic eps ABC angles ale = some r) : isTriResult r = false := by
  unfold branch_cubic at h
  repeat' (first | split at h | dsimp only at h)
  all_goals first
    | exact Option.noConfusion h
    | (injection h with h2; subst h2; rfl)

/-- Helper: the BCT test never yields a TRI lattice. -/
theorem branch_bct_not_tri (ABC angles BC_CA_AB : V3) (ale : Bool)
    (uad : Option (Fin 3)) (r : Except PyErr (Lattice × Unit))
    (h : branch_bct ABC angles BC_CA_AB ale uad = some r) : isTriResult r = false := by
  unfold branch_bct at h
  repeat' (first | split at h | dsimp only at h)
  all_goals first
    | exact Option.noConfusion h
    | (injection h with h2; subst h2; rfl)

/-- Helper: the HEX test never yields a TRI lattice. -/
theorem branch_hex_not_tri (eps : ℝ) (ABC angles BC_CA_AB : V3)
    (uad usd : Option (Fin 3)) (r : Except PyErr (Lattice × Unit))
    (h : branch_hex eps ABC angles BC_CA_AB uad usd = some r) : isTriResult r = false := by
  unfold branch_hex at h
  repeat' (first | split at h | dsimp only at h)
  all_goals first
    | exact Option.noConfusion h
    | (injection h with h2; subst h2; rfl)

/-- Helper: the TET test never yields a TRI lattice. -/
theorem branch_tet_not_tri (eps : ℝ) (ABC angles : V3) (uld : Option (Fin 3))
    (r : Except PyErr (Lattice × Unit))
    (h : branch_tet eps ABC angles uld = some r) : isTriResult r = false := by
  unfold branch_tet at h
  repeat' (first | split at h | dsimp only at h)
  all_goals first
    | exact Option.noConfusion h
    | (injection h with h2; subst h2; rfl)

/-- Helper: the ORCC test never yields a TRI lattice. -/
theorem branch_orcc_not_tri (eps : ℝ) (ABC BC_CA_AB : V3) (uld : Option (Fin 3))
    (r : Except PyErr (Lattice × Unit))
    (h : branch_orcc eps ABC BC_CA_AB uld = some r) : isTriResult r = false := by
  unfold branch_orcc at h
  repeat' (first | split at h | dsimp only at h)
  all_goals first
    | exact Option.noConfusion h
    | (injection h with h2; subst h2; rfl)
    | (rename_i lat heq
       injection h with h2
       subst h2
       simp [isTriResult, beq_eq_false_iff_ne, orcc_init_fam _ _ _ lat heq])

/-- Helper: the ORC test never yields a TRI lattice. -/
theorem branch_orc_not_tri (eps : ℝ) (ABC angles : V3) (ald : Bool)
    (r : Except PyErr (Lattice × Unit))
    (h : branch_orc eps ABC angles ald = some r) : isTriResult r = false := by
  unfold branch_orc at h
  repeat' (first | split at h | dsimp only at h)
  all_goals first
    | exact Option.noConfusion h
    | (injection h with h2; subst h2; rfl)

/-- Helper: the ORCF test never yields a TRI lattice. -/
theorem branch_orcf_not_tri (eps : ℝ) (BC_CA_AB : V3) (rows : Mat3) (ald : Bool)
    (r : Except PyErr (Lattice × Unit))
    (h : branch_orcf eps BC_CA_AB rows ald = some r) : isTriResult r = false := by
  unfold branch_orcf at h
  repeat' (first | split at h | dsimp only at h)
  all_goals first
    | exact Option.noConfusion h
    | (injection h with h2; subst h2; rfl)

/-- Helper: the ORCI test never yields a TRI lattice. -/
theorem branch_orci_not_tri (eps : ℝ) (BC_CA_AB : V3) (rows : Mat3) (ale : Bool)
    (r : Except PyErr (Lattice × Unit))
    (h : branch_orci eps BC_CA_AB rows ale = some r) : isTriResult r = false := by
  unfold branch_orci at h
  repeat' (first | split at h | dsimp only at h)
  all_goals first
    | exact Option.noConfusion h
    | (injection h with h2; subst h2; rfl)
    | (rename_i lat heq hcond
       injection h with h2
       subst h2
       simp [isTriResult, beq_eq_false_iff_ne, orci_init_fam _ _ _ lat heq])

/-- Helper: the RHL test never yields a TRI lattice. -/
theorem branch_rhl_not_tri (ABC BC_CA_AB : V3) (ale : Bool)
    (r : Except PyErr (Lattice × Unit))
    (h : branch_rhl ABC BC_CA_AB ale = some r) : isTriResult r = false := by
  unfold branch_rhl at h
  repeat' (first | split at h | dsimp only at h)
  all_goals first
    | exact Option.noConfusion h
    | (injection h with h2; subst h2; rfl)
    | (rename_i lat heq
       injection h with h2
       subst h2
       simp [isTriResult, beq_eq_false_iff_ne, rhl_init_fam _ _ lat heq])

/-- Helper: the MCL test never yields a TRI lattice. -/
theorem branch_mcl_not_tri (eps : ℝ) (ABC angles : V3) (usd : Option (Fin 3))
    (r : Except PyErr (Lattice × Unit))
    (h : branch_mcl eps ABC angles usd = some r) : isTriResult r = false := by
  unfold branch_mcl at h
  repeat' (first | split at h | dsimp only at h)
  all_goals first
    | exact Option.noConfusion h
    | (injection h with h2; subst h2; rfl)
    | (rename_i lat heq
       injection h with h2
       subst h2
       simp [isTriResult, beq_eq_false_iff_ne, mcl_init_fam _ _ _ _ lat heq])

/-- Helper: the MCLC test never yields a TRI lattice. -/
theorem branch_mclc_not_tri (ABC BC_CA_AB : V3) (uld : Option (Fin 3))
    (r : Except PyErr (Lattice × Unit))
    (h : branch_mclc ABC BC_CA_AB uld = some r) : isTriResult r = false := by
  unfold branch_mclc at h
  repeat' (first | split at h | dsimp only at h)
  all_goals first
    | exact Option.noConfusion h
    | (injection h with h2; subst h2; rfl)
    | (rename_i lat heq
       injection h with h2
       subst h2
       simp [isTriResult, beq_eq_false_iff_ne, mclc_init_fam _ _ _ _ lat heq])

/-- Helper: a property of all possible `some` outcomes of a cascade carries
over to its first firing test. -/
theorem firstSome_sat {α : Type} (P : α → Prop) :
    ∀ (L : List (Option α)), (∀ o ∈ L, ∀ x, o = some x → P x) →
      ∀ x, firstSome L = some x → P x := by
  intro L
  induction L with
  | nil => intro _ x hx; exact Option.noConfusion hx
  | cons o rest ih =>
    intro hL x hx
    cases o with
    | some y =>
      have hy : firstSome (some y :: rest) = some y := rfl
      rw [hy] at hx
      injection hx with h2
      exact h2 ▸ hL (some y) (List.mem_cons_self _ _) y rfl
    | none =>
      have hn : firstSome (none :: rest) = firstSome rest := rfl
      rw [hn] at hx
      exact ih (fun o ho => hL o (List.mem_cons_of_mem _ ho)) x hx

/-- Helper: no input whatsoever can make the classification cascade return a
TRI lattice: every one of the eleven family tests returns another family (or
raises), and the final triclinic fallback always raises. -/
theorem classify_core_not_tri (ABC angles BC_CA_AB : V3) (rows : Mat3)
    (eps : ℝ) (tc : Except PyErr (Option Unit)) :
    isTriResult (classify_core ABC angles BC_CA_AB rows eps tc) = false := by
  unfold classify_core
  split
  · rfl
  · split
    · rfl
    · split
      · rfl
      · split
        · rename_i r hfs
          refine firstSome_sat (fun t => isTriResult t = false) _ ?_ r hfs
          intro o ho x hox
          simp only [List.mem_cons, List.not_mem_nil, or_false] at ho
          rcases ho with rfl | rfl | rfl | rfl | rfl | rfl | rfl | rfl | rfl | rfl | rfl
          · exact branch_cubic_not_tri _ _ _ _ x hox
          · exact branch_bct_not_tri _ _ _ _ _ x hox
          · exact branch_hex_not_tri _ _ _ _ _ _ x hox
          · exact branch_tet_not_tri _ _ _ _ x hox
          · exact branch_orcc_not_tri _ _ _ _ x hox
          · exact branch_orc_not_tri _ _ _ _ x hox
          · exact branch_orcf_not_tri _ _ _ _ x hox
          · exact branch_orci_not_tri _ _ _ _ x hox
          · exact branch_rhl_not_tri _ _ _ x hox
          · exact branch_mcl_not_tri _ _ _ _ x hox
          · exact branch_mclc_not_tri _ _ _ x hox
        · exact tri_fallback_not_tri tc

/-- C1 (code bug): the round trip cannot hold for the TRI family, because
`get_bravais_lattice` can never return a TRI lattice for any input at all:
each branch of the cascade returns a non-TRI family, and the final triclinic
fallback always raises (`NameError` through the undefined `xxxxxxxxxxx` when
the reconstruction check matches, the generic `RuntimeError` otherwise).
This holds for every reduced cell, every tolerance, and every outcome of the
external reduction and `Cell.new` primitives. -/
theorem get_bravais_lattice_never_returns_tri (rows : Mat3) (eps : ℝ)
    (triCheck : Except PyErr (Option Unit)) :
    isTriResult (get_bravais_lattice rows eps triCheck) = false :=
  classify_core_not_tri _ _ _ rows eps triCheck

/-- Helper: `categorize_differences` succeeds whenever the pair count is not
exactly two. -/
theorem categorize_ok (eps a b c : ℝ) (h : neq_count eps a b c ≠ 2) :
    ∃ t, categorize_differences eps a b c = .ok t := by
  unfold categorize_differences
  dsimp only
  rw [if_neg h]
  exact ⟨_, rfl⟩

/-- C5 (counterexample): a cell with all three reduced lengths equal and all
three angles within `eps = 2e-4` of 90 degrees (first conjunct) for which
`get_bravais_lattice` does not return a CUB lattice: the angle triple
`(90 - 1.5e-4, 90 + 1.5e-4, 90)` has exactly two pairs within `eps`, so the
`categorize_differences(angles)` call -- which runs before any family test --
fails its internal assertion and classification aborts with
`AssertionError`. -/
theorem cubic_within_eps_assertion_counterexample :
    (∀ i : Fin 3, |(![(90 : ℝ) - 3/20000, 90 + 3/20000, 90]) i - 90| < 1/5000) ∧
    classify_core ![1, 1, 1] ![90 - 3/20000, 90 + 3/20000, 90] ![0, 0, 0]
      (fun _ _ => 0) (1/5000) (.ok none) = .error .assertionError := by
  constructor
  · intro i
    fin_cases i <;> norm_num [abs_sub_lt_iff, abs_lt]
  · have h1 : categorize_differences (1/5000) ((![(1 : ℝ), 1, 1]) 0)
        ((![(1 : ℝ), 1, 1]) 1) ((![(1 : ℝ), 1, 1]) 2) = .ok (true, false, none) := by
      norm_num [categorize_differences, neq_count]
    have h2 : categorize_differences (1/5000)
        ((![(90 : ℝ) - 3/20000, 90 + 3/20000, 90]) 0)
        ((![(90 : ℝ) - 3/20000, 90 + 3/20000, 90]) 1)
        ((![(90 : ℝ) - 3/20000, 90 + 3/20000, 90]) 2) = .error .assertionError := by
      norm_num [categorize_differences, neq_count, abs_sub_lt_iff, abs_lt]
    unfold classify_core
    rw [h1, h2]

/-- C5 (amended): the higher-symmetry cubic match does take priority over
TET and ORC, but only once the three `categorize_differences` calls survive:
for every input whose reduced lengths are pairwise within `eps`, whose
angles are each within `eps` of 90, and whose angle triple and
scalar-product triple do not hit the exactly-two-pairs-within-`eps`
assertion, the classifier returns `CUB` with the first reduced length as
lattice constant. -/
theorem cubic_match_priority_amended (ABC angles BC_CA_AB : V3) (rows : Mat3)
    (eps : ℝ) (triCheck : Except PyErr (Option Unit))
    (hlen : ∀ i j : Fin 3, |ABC i - ABC j| < eps)
    (hang : ∀ i : Fin 3, |angles i - 90| < eps)
    (hang2 : neq_count eps (angles 0) (angles 1) (angles 2) ≠ 2)
    (hsp2 : neq_count eps (BC_CA_AB 0) (BC_CA_AB 1) (BC_CA_AB 2) ≠ 2) :
    classify_core ABC angles BC_CA_AB rows eps triCheck =
      .ok (.CUB (ABC 0), ()) := by
  have h1 : categorize_differences eps (ABC 0) (ABC 1) (ABC 2) =
      .ok (true, false, none) := by
    have e0 := hlen 1 2
    have e1 := hlen 2 0
    have e2 := hlen 0 1
    simp [categorize_differences, neq_count, e0, e1, e2]
  have hcl : allclose3 eps angles 90 := by
    intro i
    have hi := hang i
    unfold npclose np_default_rtol
    have h90 : |(90 : ℝ)| = 90 := by norm_num
    rw [h90]
    have hr : (0 : ℝ) ≤ 1e-5 * 90 := by norm_num
    linarith
  have hcub : branch_cubic eps ABC angles true =
      some (.ok (.CUB (ABC 0), ())) := by
    unfold branch_cubic
    simp [hcl]
  obtain ⟨t2, h2⟩ := categorize_ok eps (angles 0) (angles 1) (angles 2) hang2
  obtain ⟨t3, h3⟩ := categorize_ok eps (BC_CA_AB 0) (BC_CA_AB 1) (BC_CA_AB 2) hsp2
  obtain ⟨ae, ad, uad⟩ := t2
  obtain ⟨se, sd, usd⟩ := t3
  unfold classify_core
  rw [h1, h2, h3]
  show (match firstSome
      [branch_cubic eps ABC angles true,
       branch_bct ABC angles BC_CA_AB true uad,
       branch_hex eps ABC angles BC_CA_AB uad usd,
       branch_tet eps ABC angles none,
       branch_orcc eps ABC BC_CA_AB none,
       branch_orc eps ABC angles false,
       branch_orcf eps BC_CA_AB rows false,
       branch_orci eps BC_CA_AB rows true,
       branch_rhl ABC BC_CA_AB true,
       branch_mcl eps ABC angles usd,
       branch_mclc ABC BC_CA_AB none] with
    | some r => r
    | none => tri_fallback triCheck) = .ok (.CUB (ABC 0), ())
  rw [hcub]
  rfl

/-- Witness for C5's amended theorem at the exactly cubic input: unit
lengths, 90-degree angles, zero scalar products, `eps = 2e-4`. -/
theorem cubic_match_priority_witness :
    classify_core ![1, 1, 1] ![90, 90, 90] ![0, 0, 0] (fun _ _ => 0) (1/5000)
      (.ok none) = .ok (.CUB 1, ()) := by
  have h := cubic_match_priority_amended ![1, 1, 1] ![90, 90, 90] ![0, 0, 0]
    (fun _ _ => 0) (1/5000) (.ok none)
    (by intro i j; fin_cases i <;> fin_cases j <;> norm_num)
    (by intro i; fin_cases i <;> norm_num)
    (by norm_num [neq_count])
    (by norm_num [neq_count])
  simpa using h

end Bravais
